import Mathlib

/-!
# Verification of the `messenger` topic-routed message broker

Shallow embedding of the broker's core (router dispatch loop, subscriber
links, peer links with retry, and the router bridge) and proofs of the
spec's testable properties against it.

Conventions of the embedding:
* Go channels become explicit `List` queues (front = oldest element); a
  non-blocking `select`-send is a conditional append guarded by the queue's
  capacity, while a blocking send is an unconditional append (the sender
  waits for room, so the element is always enqueued).
* `close(ch)` events are recorded in an explicit log (`closedQueues`) so
  that "closed exactly once" is a statement about occurrence counts.
* The websocket dial is an external effect; it is abstracted as a boolean
  outcome (`dialOk`), and the indefinite retry loop consumes a list of
  successive dial outcomes, returning `none` when the list holds no
  success (the loop is still running).
* Durations are in seconds (`Nat`); the Go constants are exact multiples
  of one second, so no precision is lost.
-/

/-- `Message` from `message.go`: `Header` is the topic label, `Body` the
opaque payload bytes (modelled as a list of byte values). -/
structure Message where
  Header : String
  Body : List Nat
deriving Repr, DecidableEq

/-- Time allowed to write a message to the peer (`writeWait = 10s`). -/
def writeWait : Nat := 10

/-- Time allowed to read the next pong message from the peer
(`pongWait = 60s`). -/
def pongWait : Nat := 60

/-- Time allowed to read the next ping message from the router on a peer
link (`pingWait = 90s`). -/
def pingWait : Nat := 90

/-- Ping period of the subscription writer pump:
`pingPeriod = (pongWait * 5) / 10`. -/
def pingPeriod : Nat := pongWait * 5 / 10

/-- Interval to wait between retry attempts (`retryInterval = 3s`). -/
def retryInterval : Nat := 3

/-- Capacity of a subscription's `send` channel
(`make(chan Message, 1024)` in `ListenForNodes`). -/
def sendCapacity : Nat := 1024

/-- Capacity of a node's read/write queues
(`make(chan Message, 4096)` in `NewNode`). -/
def nodeQueueCapacity : Nat := 4096

/-- `Node` from the peer-link source file: one outbound connection to a
remote router.  `connected` models `conn != nil`; `readDone`/`writeDone`
are the buffered done-token channels; `filters` are the keys of the
`map[string]bool` filter set. -/
structure Node where
  Name : String
  routerAddress : String
  writeQueue : List Message
  readQueue : List Message
  filters : List String
  readDone : List Bool
  writeDone : List Bool
  state : String
  connected : Bool
deriving Repr, DecidableEq

/-- `NewNode(name, filters)`: fresh standby node with empty queues; the
filter list is inserted into a set (duplicates collapse, as in the Go
`map[string]bool`). -/
def NewNode (name : String) (filters : List String) : Node :=
  { Name := name
    routerAddress := ""
    writeQueue := []
    readQueue := []
    filters := filters.foldl (fun fs f => if f ∈ fs then fs else fs ++ [f]) []
    readDone := []
    writeDone := []
    state := "standby"
    connected := false }

/-- `Node.Write`: blocking send onto the node's outbound queue — always
enqueues (the caller waits for room rather than dropping). -/
def Node.Write (n : Node) (m : Message) : Node :=
  { n with writeQueue := n.writeQueue ++ [m] }

/-- One iteration of `Node.readPump`'s loop body after a successful
decode: the message is enqueued on `readQueue` iff its header is in the
node's filter set; otherwise the pump just continues. -/
def readPumpStep (n : Node) (msg : Message) : Node :=
  if msg.Header ∈ n.filters then
    { n with readQueue := n.readQueue ++ [msg] }
  else n

/-- `Node.openConnection`: the dial either succeeds (connection handle
set) or fails (`none`, carrying no state change). -/
def openConnection (n : Node) (dialOk : Bool) : Option Node :=
  if dialOk then some { n with connected := true } else none

/-- Result of `Node.ConnectToRouter`: the updated node, the returned
error, and whether the two pumps were started / the retry goroutine was
spawned. -/
structure ConnectResult where
  node : Node
  error : Option String
  pumpsStarted : Bool
  retrySpawned : Bool
deriving Repr, DecidableEq

/-- `Node.ConnectToRouter(address)`: record the address and dial.  On
success set state `"good"` and start both pumps; on failure post one done
token on each of `readDone`/`writeDone`, spawn `retryConnection`, and
return an error. -/
def ConnectToRouter (n : Node) (address : String) (dialOk : Bool) :
    ConnectResult :=
  let n1 := { n with routerAddress := address }
  match openConnection n1 dialOk with
  | some n2 =>
      { node := { n2 with state := "good" }
        error := none
        pumpsStarted := true
        retrySpawned := false }
  | none =>
      { node := { n1 with readDone := n1.readDone ++ [true],
                          writeDone := n1.writeDone ++ [true] }
        error := some ("failed to open connection to router " ++ address
                        ++ ". retrying connection...")
        pumpsStarted := false
        retrySpawned := true }

/-- First action of `Node.retryConnection`: mark the connection as down
by appending `" retrying"` to the state label. -/
def markRetrying (n : Node) : Node :=
  { n with state := n.state ++ " retrying" }

/-- Waiting phase of `Node.retryConnection`: mark the state, then receive
one done token from the read pump and one from the write pump; `none`
means the procedure is still blocked waiting for a pump to exit. -/
def retryWait (n : Node) : Option Node :=
  let n1 := markRetrying n
  match n1.readDone, n1.writeDone with
  | _ :: rds, _ :: wds => some { n1 with readDone := rds, writeDone := wds }
  | _, _ => none

/-- The redial loop of `Node.retryConnection`: try `openConnection`; after
each failure sleep `retryInterval` seconds and try again.  `outcomes` is
the finite prefix of dial outcomes observed; the result carries the
number of sleeps performed, and `none` means no dial in the prefix
succeeded (the loop is still running). -/
def retryDialLoop (n : Node) (outcomes : List Bool) : Option (Node × Nat) :=
  match outcomes with
  | [] => none
  | ok :: rest =>
      match openConnection n ok with
      | some n2 => some (n2, 0)
      | none =>
          match retryDialLoop n rest with
          | some (n3, k) => some (n3, k + 1)
          | none => none

/-- Result of a completed `Node.retryConnection`: the reconnected node,
the number of `retryInterval` sleeps performed, and the restart of both
pumps. -/
structure RetryResult where
  node : Node
  sleeps : Nat
  pumpsStarted : Bool
deriving Repr, DecidableEq

/-- `Node.retryConnection`: wait for both pumps' done tokens, then redial
with backoff until a dial succeeds; on success set state `"good"` and
restart both pumps.  `none` means the procedure has not completed on the
given dial-outcome prefix. -/
def retryConnection (n : Node) (outcomes : List Bool) : Option RetryResult :=
  match retryWait n with
  | none => none
  | some n2 =>
      match retryDialLoop n2 outcomes with
      | none => none
      | some (n3, k) =>
          some { node := { n3 with state := "good" }
                 sleeps := k
                 pumpsStarted := true }

/-- `RouterBridge` from the bridge source file: pairs a peer `Node` with
the router it feeds (the back-reference carries no state of its own). -/
structure RouterBridge where
  Node : Node
deriving Repr, DecidableEq

/-- Result of `StartBridge`: the bridge (always constructed) and the
error returned by the immediate connect attempt. -/
structure StartBridgeResult where
  bridge : RouterBridge
  error : Option String
deriving Repr, DecidableEq

/-- `StartBridge(address, filters, router)`: build a node with the given
address and filters, immediately `ConnectToRouter`, and return the bridge
together with the connect error. -/
def StartBridge (address : String) (filters : List String) (dialOk : Bool) :
    StartBridgeResult :=
  let cr := ConnectToRouter (NewNode address filters) address dialOk
  { bridge := { Node := cr.node }, error := cr.error }

/-- `RouterBridge.WritePassthrough`: synchronous forward of one message
onto the peer node's outbound queue. -/
def WritePassthrough (b : RouterBridge) (msg : Message) : RouterBridge :=
  { b with Node := b.Node.Write msg }

/-- One subscription (`Subscription` with its `send` channel); `sid`
models the pointer identity of the Go `*Subscription`. -/
structure SubState where
  sid : Nat
  queue : List Message
deriving Repr, DecidableEq

/-- The router's dispatch state: live subscriptions, the routing table
(association list, modelling the Go map), live peer bridges (their
nodes), and the log of `close(sub.send)` events. -/
structure RouterState where
  subscriptions : List SubState
  routingTable : List (String × List String)
  routerConnections : List Node
  closedQueues : List Nat
deriving Repr, DecidableEq

/-- Routing-table lookup (`r.routingTable[message.Header]`). -/
def lookupTable (table : List (String × List String)) (header : String) :
    Option (List String) :=
  (table.find? (fun p => p.1 == header)).map Prod.snd

/-- The inner subscriber loop of `Router.route` for one rewritten
message: a non-blocking send to every live subscription.  Returns the
surviving subscriptions (message appended where there was room) and the
ids of subscriptions whose full queue was closed and which were removed. -/
def deliverToSubs (m : Message) : List SubState → List SubState × List Nat
  | [] => ([], [])
  | s :: rest =>
      let (rest2, closes) := deliverToSubs m rest
      if s.queue.length < sendCapacity then
        ({ s with queue := s.queue ++ [m] } :: rest2, closes)
      else
        (rest2, s.sid :: closes)

/-- The body of `Router.route`'s outer loop for one output topic
`newHeader`: non-blocking fan-out to subscriptions, then a blocking
`WritePassthrough` to every peer connection. -/
def routeOne (body : List Nat) (st : RouterState) (newHeader : String) :
    RouterState :=
  let m : Message := { Header := newHeader, Body := body }
  let d := deliverToSubs m st.subscriptions
  { st with
      subscriptions := d.1
      closedQueues := st.closedQueues ++ d.2
      routerConnections := st.routerConnections.map (fun c => c.Write m) }

/-- `Router.route(message)`: look the header up in the routing table; if
absent return silently, otherwise process each output topic in list
order. -/
def route (st : RouterState) (msg : Message) : RouterState :=
  match lookupTable st.routingTable msg.Header with
  | none => st
  | some headers => headers.foldl (routeOne msg.Body) st

/-- The three event sources of `Router.StartRouter`'s select loop. -/
inductive RouterEvent where
  | register (s : SubState)
  | unregister (sid : Nat)
  | inbound (m : Message)
deriving Repr, DecidableEq

/-- One iteration of `Router.StartRouter`'s select loop: registration
adds to the live-set; unregistration removes and closes the queue only
when the subscription is still present; an inbound message runs
dispatch. -/
def routerStep (st : RouterState) (e : RouterEvent) : RouterState :=
  match e with
  | .register s => { st with subscriptions := st.subscriptions ++ [s] }
  | .unregister sid =>
      if st.subscriptions.any (fun s => s.sid == sid) then
        { st with
            subscriptions := st.subscriptions.filter (fun s => s.sid ≠ sid)
            closedQueues := st.closedQueues ++ [sid] }
      else st
  | .inbound m => route st m

/-- The batch of rewritten messages one inbound body produces for a list
of output topics, in table order. -/
def outputsOf (headers : List String) (body : List Nat) : List Message :=
  headers.map (fun t => Message.mk t body)

/-- Append a batch of messages to a subscription's outbound queue. -/
def subAppend (batch : List Message) (s : SubState) : SubState :=
  { s with queue := s.queue ++ batch }

/-- Append a batch of messages to a peer node's outbound queue. -/
def nodeAppend (batch : List Message) (c : Node) : Node :=
  { c with writeQueue := c.writeQueue ++ batch }

/-! ## Concrete fixtures (used by witness theorems) -/

/-- A sample inbound message with topic `"a"`. -/
def mA : Message := { Header := "a", Body := [7, 13] }

/-- A sample inbound message with topic `"ping"`. -/
def mPing : Message := { Header := "ping", Body := [1] }

/-- A sample peer node whose filter set does not contain the broker's
output topics. -/
def peerW : Node := NewNode "peer" ["x"]

/-- A router state with two empty subscriptions, one peer connection and
the table `{"a" ↦ ["b", "c"]}`. -/
def stW : RouterState :=
  { subscriptions := [{ sid := 1, queue := [] }, { sid := 2, queue := [] }]
    routingTable := [("a", ["b", "c"])]
    routerConnections := [peerW]
    closedQueues := [] }

/-- A subscription queue filled to capacity. -/
def fullQueue : List Message :=
  List.replicate sendCapacity { Header := "old", Body := [] }

/-- A router state where subscription 1 has a full queue, with the table
`{"ping" ↦ ["pong"]}`. -/
def stF : RouterState :=
  { subscriptions := [{ sid := 1, queue := fullQueue },
                      { sid := 2, queue := [] }]
    routingTable := [("ping", ["pong"])]
    routerConnections := []
    closedQueues := [] }

/-- A node whose pumps have both posted their done tokens, ready for the
retry procedure. -/
def nRetryW : Node :=
  { NewNode "n" ["t"] with readDone := [true], writeDone := [true] }

/-! ## Helper lemmas -/

/-- Pointwise-equal functions give equal maps over a list. -/
theorem list_map_ext {α β : Type} (l : List α) (f g : α → β)
    (h : ∀ a ∈ l, f a = g a) : l.map f = l.map g := by
  induction l with
  | nil => rfl
  | cons a rest ih =>
      simp only [List.map_cons, h a (List.mem_cons_self a rest)]
      exact congrArg _ (ih fun a ha => h a (List.mem_cons_of_mem _ ha))

/-- Membership in the filter set built by `NewNode`'s fold coincides with
membership in the input list. -/
theorem mem_filterFold (fs : List String) :
    ∀ (acc : List String) (t : String),
      t ∈ fs.foldl (fun fs f => if f ∈ fs then fs else fs ++ [f]) acc ↔
        (t ∈ acc ∨ t ∈ fs) := by
  induction fs with
  | nil => intro acc t; simp
  | cons f rest ih =>
      intro acc t
      have hacc : t ∈ (if f ∈ acc then acc else acc ++ [f]) ↔
          (t ∈ acc ∨ t = f) := by
        by_cases hf : f ∈ acc
        · simp only [if_pos hf]
          constructor
          · exact Or.inl
          · rintro (h | rfl) <;> assumption
        · simp [if_neg hf]
      simp only [List.foldl_cons, ih, hacc, List.mem_cons]
      tauto

/-- Filter membership of a freshly built node. -/
theorem newNode_filters (name : String) (filters : List String) (t : String) :
    t ∈ (NewNode name filters).filters ↔ t ∈ filters := by
  simp [NewNode, mem_filterFold]

/-! ## C9: keepalive timing constants -/

/-- C9: the subscription writer's ping period is half the 60-second pong
timeout, namely 30 seconds, and strictly less than that timeout; the peer
reader's read deadline is 90 seconds, strictly greater than the remote's
30-second probe period. -/
theorem keepalive_timing_spec :
    pingPeriod = pongWait / 2 ∧ pingPeriod = 30 ∧ pingPeriod < pongWait ∧
      pingWait = 90 ∧ pingPeriod < pingWait := by
  decide

/-! ## C5: unknown topic is a silent no-op -/

/-- C5: a message whose header is absent from the routing table leaves
the entire router state (subscriptions, bridges, close log, table)
unchanged and produces no outbound messages. -/
theorem unknown_topic_noop (st : RouterState) (msg : Message)
    (h : lookupTable st.routingTable msg.Header = none) :
    route st msg = st := by
  simp [route, h]

/-- Witness for C5 at a concrete state and message. -/
theorem unknown_topic_noop_witness :
    route stW { Header := "zzz", Body := [9] } = stW :=
  unknown_topic_noop stW { Header := "zzz", Body := [9] } (by decide)

/-! ## C6: peer reader filters inbound messages -/

/-- C6: a decoded message is enqueued on the peer link's inbound queue
iff its topic belongs to the filter set; a non-matching message leaves
the node entirely unchanged; and the filter set built by `NewNode`
contains exactly the configured topics. -/
theorem readPump_filter_spec (n : Node) (msg : Message) :
    ((readPumpStep n msg).readQueue = n.readQueue ++ [msg] ↔
        msg.Header ∈ n.filters) ∧
      (msg.Header ∉ n.filters → readPumpStep n msg = n) ∧
      (∀ (name : String) (fs : List String) (t : String),
        t ∈ (NewNode name fs).filters ↔ t ∈ fs) := by
  refine ⟨?_, ?_, fun name fs t => newNode_filters name fs t⟩
  · by_cases h : msg.Header ∈ n.filters
    · simp [readPumpStep, h]
    · simp [readPumpStep, h]
  · intro h
    simp [readPumpStep, h]

/-- Witness for C6: a matching message is enqueued, a non-matching one is
dropped, at a concrete node. -/
theorem readPump_filter_spec_witness :
    ((readPumpStep peerW { Header := "x", Body := [2] }).readQueue =
        peerW.readQueue ++ [{ Header := "x", Body := [2] }]) ∧
      readPumpStep peerW { Header := "y", Body := [2] } = peerW :=
  ⟨(readPump_filter_spec peerW { Header := "x", Body := [2] }).1.mpr
      (by decide),
   (readPump_filter_spec peerW { Header := "y", Body := [2] }).2.1
      (by decide)⟩

/-- When both done tokens are available, the retry procedure's waiting
phase completes and leaves the state marked with the `" retrying"`
suffix. -/
theorem retryWait_some (n : Node) (hr : n.readDone ≠ []) (hw : n.writeDone ≠ []) :
    ∃ n2, retryWait n = some n2 ∧ n2.state = n.state ++ " retrying" := by
  cases hrd : n.readDone with
  | nil => exact absurd hrd hr
  | cons a rds =>
      cases hwd : n.writeDone with
      | nil => exact absurd hwd hw
      | cons b wds =>
          exact ⟨{ n with state := n.state ++ " retrying",
                          readDone := rds, writeDone := wds },
                 by simp [retryWait, markRetrying, hrd, hwd], rfl⟩

/-! ## C7: ConnectToRouter success/failure contract -/

/-- C7: `ConnectToRouter` returns an error iff the dial fails; on success
the node is `"good"` (the spec's `active`) with both pumps started; on
failure no pump is started, the retry procedure is spawned, and — both
done tokens having been posted — that procedure immediately proceeds and
marks the state with the `" retrying"` suffix. -/
theorem connectToRouter_spec (n : Node) (addr : String) (dialOk : Bool) :
    ((ConnectToRouter n addr dialOk).error = none ↔ dialOk = true) ∧
      (dialOk = true →
        (ConnectToRouter n addr dialOk).node.state = "good" ∧
          (ConnectToRouter n addr dialOk).node.connected = true ∧
          (ConnectToRouter n addr dialOk).pumpsStarted = true ∧
          (ConnectToRouter n addr dialOk).retrySpawned = false) ∧
      (dialOk = false →
        (ConnectToRouter n addr dialOk).pumpsStarted = false ∧
          (ConnectToRouter n addr dialOk).retrySpawned = true ∧
          (∃ e, (ConnectToRouter n addr dialOk).error = some e) ∧
          (∃ n2, retryWait (ConnectToRouter n addr dialOk).node = some n2 ∧
            n2.state = n.state ++ " retrying")) := by
  cases dialOk with
  | true => simp [ConnectToRouter, openConnection]
  | false =>
      refine ⟨by simp [ConnectToRouter, openConnection], by simp, ?_⟩
      intro _
      refine ⟨by simp [ConnectToRouter, openConnection],
              by simp [ConnectToRouter, openConnection],
              ⟨"failed to open connection to router " ++ addr ++
                  ". retrying connection...",
                by simp [ConnectToRouter, openConnection]⟩, ?_⟩
      obtain ⟨n2, h2, hstate⟩ :=
        retryWait_some (ConnectToRouter n addr false).node
          (by simp [ConnectToRouter, openConnection])
          (by simp [ConnectToRouter, openConnection])
      refine ⟨n2, h2, hstate.trans ?_⟩
      have : (ConnectToRouter n addr false).node.state = n.state := by
        simp [ConnectToRouter, openConnection]
      rw [this]

/-- Witness for C7: both branches at concrete inputs — a successful dial
yields no error with pumps started; a failed dial yields an error with
the retry spawned. -/
theorem connectToRouter_spec_witness :
    ((ConnectToRouter (NewNode "n" []) "addr" true).error = none ∧
        (ConnectToRouter (NewNode "n" []) "addr" true).node.state = "good") ∧
      ((ConnectToRouter (NewNode "n" []) "addr" false).pumpsStarted = false ∧
        (ConnectToRouter (NewNode "n" []) "addr" false).retrySpawned = true) :=
  ⟨⟨(connectToRouter_spec (NewNode "n" []) "addr" true).1.mpr rfl,
    ((connectToRouter_spec (NewNode "n" []) "addr" true).2.1 rfl).1⟩,
   ⟨((connectToRouter_spec (NewNode "n" []) "addr" false).2.2 rfl).1,
    ((connectToRouter_spec (NewNode "n" []) "addr" false).2.2 rfl).2.1⟩⟩

/-! ## C8: StartBridge always yields a bridge, surfacing the dial error -/

/-- C8: `StartBridge` always returns a bridge whose node carries exactly
the given address (as name and dial target) and exactly the given topic
filter set, in both the success and the failure case; and its error is
exactly the error of the immediate `ConnectToRouter` attempt — `none` iff
the dial succeeded. -/
theorem startBridge_spec (address : String) (filters : List String)
    (dialOk : Bool) :
    (StartBridge address filters dialOk).bridge.Node.Name = address ∧
      (StartBridge address filters dialOk).bridge.Node.routerAddress =
        address ∧
      (∀ t, t ∈ (StartBridge address filters dialOk).bridge.Node.filters ↔
        t ∈ filters) ∧
      (StartBridge address filters dialOk).error =
        (ConnectToRouter (NewNode address filters) address dialOk).error ∧
      ((StartBridge address filters dialOk).error = none ↔ dialOk = true) := by
  cases dialOk with
  | true =>
      refine ⟨by simp [StartBridge, ConnectToRouter, openConnection, NewNode],
              by simp [StartBridge, ConnectToRouter, openConnection, NewNode],
              ?_, by simp [StartBridge],
              by simp [StartBridge, ConnectToRouter, openConnection]⟩
      intro t
      have h : (StartBridge address filters true).bridge.Node.filters =
          (NewNode address filters).filters := by
        simp [StartBridge, ConnectToRouter, openConnection]
      rw [h, newNode_filters]
  | false =>
      refine ⟨by simp [StartBridge, ConnectToRouter, openConnection, NewNode],
              by simp [StartBridge, ConnectToRouter, openConnection, NewNode],
              ?_, by simp [StartBridge],
              by simp [StartBridge, ConnectToRouter, openConnection]⟩
      intro t
      have h : (StartBridge address filters false).bridge.Node.filters =
          (NewNode address filters).filters := by
        simp [StartBridge, ConnectToRouter, openConnection]
      rw [h, newNode_filters]

/-- Witness for C8 at a concrete failed dial: the bridge is still built
with the right address and filters, and the dial error is surfaced. -/
theorem startBridge_spec_witness :
    (StartBridge "addr" ["t1", "t2"] false).bridge.Node.Name = "addr" ∧
      ("t1" ∈ (StartBridge "addr" ["t1", "t2"] false).bridge.Node.filters ↔
        "t1" ∈ ["t1", "t2"]) ∧
      ¬(StartBridge "addr" ["t1", "t2"] false).error = none :=
  ⟨(startBridge_spec "addr" ["t1", "t2"] false).1,
   (startBridge_spec "addr" ["t1", "t2"] false).2.2.1 "t1",
   fun h => by
     have := ((startBridge_spec "addr" ["t1", "t2"] false).2.2.2.2).mp h
     exact Bool.false_ne_true this⟩

/-! ## C3: retry procedure redials with fixed backoff until success -/

/-- The redial loop succeeds exactly at the first successful dial, having
slept once per preceding failure. -/
theorem retryDialLoop_firstSuccess (n : Node) (outcomes : List Bool)
    (h : true ∈ outcomes) :
    retryDialLoop n outcomes =
      some ({ n with connected := true },
        (outcomes.takeWhile (fun b => !b)).length) := by
  induction outcomes with
  | nil => cases h
  | cons ok rest ih =>
      cases ok with
      | true => simp [retryDialLoop, openConnection, List.takeWhile]
      | false =>
          have hrest : true ∈ rest := by
            cases List.mem_cons.mp h with
            | inl h0 => cases h0
            | inr h0 => exact h0
          simp [retryDialLoop, openConnection, List.takeWhile, ih hrest]

/-- A redial loop that never observes a successful dial never returns. -/
theorem retryDialLoop_noSuccess (n : Node) (outcomes : List Bool)
    (h : true ∉ outcomes) :
    retryDialLoop n outcomes = none := by
  induction outcomes with
  | nil => rfl
  | cons ok rest ih =>
      cases ok with
      | true => exact absurd (List.mem_cons_self true rest) h
      | false =>
          have hrest : true ∉ rest := fun hr => h (List.mem_cons_of_mem _ hr)
          simp [retryDialLoop, openConnection, ih hrest]

/-- C3: once both pumps have posted their done tokens, the retry
procedure completes as soon as some dial succeeds: it sleeps exactly one
`retryInterval` (3 seconds) per failed attempt before the first success,
ends with state `"good"` (the spec's `active`), the connection open and
both pumps restarted; and on any outcome prefix with no successful dial
it has not completed. -/
theorem retryConnection_spec (n : Node) (outcomes : List Bool)
    (hr : n.readDone ≠ []) (hw : n.writeDone ≠ []) (hs : true ∈ outcomes) :
    (∃ r, retryConnection n outcomes = some r ∧
      r.node.state = "good" ∧
      r.node.connected = true ∧
      r.pumpsStarted = true ∧
      r.sleeps = (outcomes.takeWhile (fun b => !b)).length ∧
      r.sleeps * retryInterval =
        (outcomes.takeWhile (fun b => !b)).length * 3) ∧
    (∀ outcomes2, true ∉ outcomes2 → retryConnection n outcomes2 = none) := by
  obtain ⟨n2, h2, _⟩ := retryWait_some n hr hw
  constructor
  · refine ⟨{ node := { n2 with connected := true, state := "good" },
              sleeps := (outcomes.takeWhile (fun b => !b)).length,
              pumpsStarted := true }, ?_, rfl, rfl, rfl, rfl, rfl⟩
    simp [retryConnection, h2, retryDialLoop_firstSuccess n2 outcomes hs]
  · intro outcomes2 h0
    simp [retryConnection, h2, retryDialLoop_noSuccess n2 outcomes2 h0]

/-- Witness for C3: a node with both done tokens posted and the dial
outcome prefix fail–fail–succeed. -/
theorem retryConnection_spec_witness :
    (∃ r, retryConnection nRetryW [false, false, true] = some r ∧
      r.node.state = "good" ∧
      r.node.connected = true ∧
      r.pumpsStarted = true ∧
      r.sleeps = ([false, false, true].takeWhile (fun b => !b)).length ∧
      r.sleeps * retryInterval =
        ([false, false, true].takeWhile (fun b => !b)).length * 3) ∧
    (∀ outcomes2, true ∉ outcomes2 →
      retryConnection nRetryW outcomes2 = none) :=
  retryConnection_spec nRetryW [false, false, true]
    (by decide) (by decide) (by decide)

/-! ## Dispatch lemmas -/

/-- Appending an empty batch to every subscription queue is the
identity. -/
theorem map_append_nil_sub (l : List SubState) :
    l.map (fun s => { s with queue := s.queue ++ ([] : List Message) }) = l := by
  induction l with
  | nil => rfl
  | cons s rest ih => simp [ih]

/-- Appending an empty batch to every peer write queue is the
identity. -/
theorem map_append_nil_node (l : List Node) :
    l.map (fun c => { c with writeQueue := c.writeQueue ++ ([] : List Message) })
      = l := by
  induction l with
  | nil => rfl
  | cons c rest ih => simp [ih]

/-- When every subscription queue has room, the non-blocking fan-out
delivers to all of them and closes none. -/
theorem deliverToSubs_of_room (m : Message) (subs : List SubState)
    (h : ∀ s ∈ subs, s.queue.length < sendCapacity) :
    deliverToSubs m subs =
      (subs.map (fun s => { s with queue := s.queue ++ [m] }), []) := by
  induction subs with
  | nil => rfl
  | cons s rest ih =>
      have hs := h s (List.mem_cons_self s rest)
      have hrest := ih fun a ha => h a (List.mem_cons_of_mem _ ha)
      simp [deliverToSubs, hrest, if_pos hs]

/-- Dispatching a batch of output topics appends the whole rewritten
batch to every peer connection's outbound queue, unconditionally. -/
theorem foldl_routeOne_peers (body : List Nat) (hs : List String) :
    ∀ st : RouterState,
      (hs.foldl (routeOne body) st).routerConnections =
        st.routerConnections.map
          (fun c => { c with writeQueue :=
            c.writeQueue ++ hs.map (fun t => Message.mk t body) }) := by
  induction hs with
  | nil => intro st; simp [map_append_nil_node]
  | cons h rest ih =>
      intro st
      rw [List.foldl_cons, ih]
      rw [show (routeOne body st h).routerConnections =
            st.routerConnections.map (fun c => c.Write (Message.mk h body))
          from rfl]
      rw [List.map_map]
      apply list_map_ext
      intro c _
      simp [Node.Write, Function.comp]

/-- When every subscription queue has room for the whole batch, the
dispatch of that batch appends exactly the rewritten batch to every
subscription queue, in configured order, and closes no queue. -/
theorem foldl_routeOne_subs (body : List Nat) (hs : List String) :
    ∀ st : RouterState,
      (∀ s ∈ st.subscriptions, s.queue.length + hs.length ≤ sendCapacity) →
      (hs.foldl (routeOne body) st).subscriptions =
        st.subscriptions.map
          (fun s => { s with queue :=
            s.queue ++ hs.map (fun t => Message.mk t body) }) ∧
      (hs.foldl (routeOne body) st).closedQueues = st.closedQueues := by
  induction hs with
  | nil => intro st _; exact ⟨by simp [map_append_nil_sub], rfl⟩
  | cons h rest ih =>
      intro st hroom
      rw [List.foldl_cons]
      have hroom1 : ∀ s ∈ st.subscriptions, s.queue.length < sendCapacity := by
        intro s hsmem
        have := hroom s hsmem
        simp only [List.length_cons] at this
        omega
      have hdeliver := deliverToSubs_of_room (Message.mk h body)
        st.subscriptions hroom1
      have hsubs1 : (routeOne body st h).subscriptions =
          st.subscriptions.map
            (fun s => { s with queue := s.queue ++ [Message.mk h body] }) := by
        simp [routeOne, hdeliver]
      have hclosed1 : (routeOne body st h).closedQueues = st.closedQueues := by
        simp [routeOne, hdeliver]
      have hroom2 : ∀ s ∈ (routeOne body st h).subscriptions,
          s.queue.length + rest.length ≤ sendCapacity := by
        rw [hsubs1]
        intro s hsmem
        simp only [List.mem_map] at hsmem
        obtain ⟨s0, hs0, rfl⟩ := hsmem
        have h2 := hroom s0 hs0
        simp only [List.length_cons] at h2
        simp only [List.length_append, List.length_cons, List.length_nil]
        omega
      obtain ⟨ha, hb⟩ := ih (routeOne body st h) hroom2
      constructor
      · rw [ha, hsubs1, List.map_map]
        apply list_map_ext
        intro s _
        simp [Function.comp]
      · rw [hb, hclosed1]

/-! ## C1: fan-out of a routed message -/

/-- C1: for a message whose topic maps to `[t1..tn]` and a live-set all
of whose subscription queues have room for the whole batch, dispatch
appends, in table order, exactly one rewritten message per output topic —
payload unchanged — to every subscription's outbound queue and to every
bridge's peer outbound queue, closing no queue. -/
theorem route_fanout (st : RouterState) (msg : Message) (headers : List String)
    (hT : lookupTable st.routingTable msg.Header = some headers)
    (hRoom : ∀ s ∈ st.subscriptions,
      s.queue.length + headers.length ≤ sendCapacity) :
    (route st msg).subscriptions =
        st.subscriptions.map (subAppend (outputsOf headers msg.Body)) ∧
      (route st msg).routerConnections =
        st.routerConnections.map (nodeAppend (outputsOf headers msg.Body)) ∧
      (route st msg).closedQueues = st.closedQueues := by
  have hroute : route st msg = headers.foldl (routeOne msg.Body) st := by
    simp [route, hT]
  obtain ⟨ha, hb⟩ := foldl_routeOne_subs msg.Body headers st hRoom
  have hp := foldl_routeOne_peers msg.Body headers st
  exact ⟨hroute ▸ ha, hroute ▸ hp, hroute ▸ hb⟩

/-- Witness for C1: the table `{"a" ↦ ["b","c"]}`, two empty
subscriptions and one peer — each target receives `b` then `c` with the
original payload. -/
theorem route_fanout_witness :
    (route stW mA).subscriptions =
        stW.subscriptions.map (subAppend (outputsOf ["b", "c"] mA.Body)) ∧
      (route stW mA).routerConnections =
        stW.routerConnections.map (nodeAppend (outputsOf ["b", "c"] mA.Body)) ∧
      (route stW mA).closedQueues = stW.closedQueues :=
  route_fanout stW mA ["b", "c"] (by decide) (by decide)

/-! ## C4: peer delivery is blocking — no drop, no bridge removal -/

/-- C4: dispatch never removes a bridge (their number and identities are
preserved for every message), and when the topic is routed the whole
rewritten batch is appended to every bridge's peer outbound queue with no
condition on that queue's length — the blocking send absorbs a full peer
queue as backpressure instead of dropping messages or the bridge, unlike
the capacity-guarded non-blocking send used for subscriptions. -/
theorem route_peer_blocking (st : RouterState) (msg : Message) :
    (route st msg).routerConnections.length =
        st.routerConnections.length ∧
      (route st msg).routerConnections.map Node.Name =
        st.routerConnections.map Node.Name ∧
      (∀ headers, lookupTable st.routingTable msg.Header = some headers →
        (route st msg).routerConnections =
          st.routerConnections.map (nodeAppend (outputsOf headers msg.Body))) := by
  cases hT : lookupTable st.routingTable msg.Header with
  | none => simp [route, hT]
  | some headers =>
      have hroute : route st msg = headers.foldl (routeOne msg.Body) st := by
        simp [route, hT]
      have hp := foldl_routeOne_peers msg.Body headers st
      refine ⟨?_, ?_, ?_⟩
      · rw [hroute, hp, List.length_map]
      · rw [hroute, hp, List.map_map]
        apply list_map_ext
        intro c _
        rfl
      · intro headers2 hT2
        have h3 : headers2 = headers := (Option.some.inj hT2).symm
        subst h3
        rw [hroute]
        exact hp

/-- A state like `stW` whose only peer already holds a queue past the
4096 capacity. -/
def stWFullPeer : RouterState :=
  { stW with routerConnections :=
      [nodeAppend (List.replicate nodeQueueCapacity mPing) peerW] }

/-- Witness for C4: a peer whose outbound queue is already at its 4096
capacity still receives the routed messages and stays in the live-set. -/
theorem route_peer_blocking_witness :
    (route stWFullPeer mA).routerConnections =
      stWFullPeer.routerConnections.map (nodeAppend (outputsOf ["b", "c"] mA.Body)) ∧
      (route stWFullPeer mA).routerConnections.length =
        stWFullPeer.routerConnections.length :=
  ⟨(route_peer_blocking stWFullPeer mA).2.2 ["b", "c"] (by decide),
   (route_peer_blocking stWFullPeer mA).1⟩

/-! ## C10: outbound delivery to peers ignores the filter set -/

/-- Replace every peer's filter set according to `f` (used to state that
outbound dispatch cannot observe the filters). -/
def withFilters (f : String → List String) (st : RouterState) : RouterState :=
  { st with routerConnections :=
      st.routerConnections.map (fun c => { c with filters := f c.Name }) }

/-- C10: the peer outbound queues produced by dispatch do not depend on
the peers' filter sets in any way (replacing every bridge's filter set
arbitrarily leaves every outbound queue identical), while a message read
FROM a peer is dropped by the reader pump whenever its topic is outside
the filter set — the filters act only on the inbound direction. -/
theorem route_outbound_unfiltered (st : RouterState) (msg : Message)
    (f : String → List String) :
    (route (withFilters f st) msg).routerConnections.map Node.writeQueue =
        (route st msg).routerConnections.map Node.writeQueue ∧
      (∀ (n : Node) (m : Message),
        m.Header ∉ n.filters → readPumpStep n m = n) := by
  constructor
  · cases hT : lookupTable st.routingTable msg.Header with
    | none =>
        have hT2 : lookupTable (withFilters f st).routingTable msg.Header =
            none := hT
        rw [show route st msg = st by simp [route, hT],
            show route (withFilters f st) msg = withFilters f st by
              simp [route, hT2]]
        simp only [withFilters, List.map_map]
        apply list_map_ext
        intro c _
        rfl
    | some headers =>
        have hT2 : lookupTable (withFilters f st).routingTable msg.Header =
            some headers := hT
        have h1 := foldl_routeOne_peers msg.Body headers (withFilters f st)
        have h2 := foldl_routeOne_peers msg.Body headers st
        rw [show route (withFilters f st) msg =
              headers.foldl (routeOne msg.Body) (withFilters f st) by
              simp [route, hT2],
            show route st msg = headers.foldl (routeOne msg.Body) st by
              simp [route, hT],
            h1, h2]
        simp only [withFilters, List.map_map]
        apply list_map_ext
        intro c _
        rfl
  · intro n m h
    simp [readPumpStep, h]

/-- Witness for C10: replacing the peer's filter set leaves the routed
outbound queues identical, while the peer's reader drops an inbound
message with an unfiltered topic. -/
theorem route_outbound_unfiltered_witness :
    (route (withFilters (fun _ => ["only"]) stW) mA).routerConnections.map
        Node.writeQueue =
      (route stW mA).routerConnections.map Node.writeQueue ∧
      readPumpStep peerW (Message.mk "b" mA.Body) = peerW :=
  ⟨(route_outbound_unfiltered stW mA (fun _ => ["only"])).1,
   (route_outbound_unfiltered stW mA (fun _ => ["only"])).2
     peerW (Message.mk "b" mA.Body) (by decide)⟩

/-! ## C2: a full subscription queue is closed and removed exactly once -/

/-- Characterization of the non-blocking fan-out: survivors are exactly
the subscriptions with room (message appended), and the emitted close
events are exactly the ids of the full ones. -/
theorem deliverToSubs_eq (m : Message) (subs : List SubState) :
    deliverToSubs m subs =
      ((subs.filter (fun s => s.queue.length < sendCapacity)).map
          (fun s => { s with queue := s.queue ++ [m] }),
        (subs.filter (fun s => ¬(s.queue.length < sendCapacity))).map
          SubState.sid) := by
  induction subs with
  | nil => rfl
  | cons s rest ih =>
      by_cases hr : s.queue.length < sendCapacity
      · simp [deliverToSubs, ih, hr]
      · have hr2 : sendCapacity ≤ s.queue.length := Nat.not_lt.mp hr
        simp [deliverToSubs, ih, hr, List.filter_cons, hr2]

/-- Dispatching one output topic to a live-set that does not contain a
given id neither reintroduces that id nor closes its queue. -/
theorem routeOne_absent (body : List Nat) (h : String) (st : RouterState)
    (sid : Nat) (hA : ∀ s ∈ st.subscriptions, s.sid ≠ sid) :
    (∀ s2 ∈ (routeOne body st h).subscriptions, s2.sid ≠ sid) ∧
      (routeOne body st h).closedQueues.count sid =
        st.closedQueues.count sid := by
  constructor
  · intro s2 h2
    have hsubs : (routeOne body st h).subscriptions =
        (st.subscriptions.filter (fun s => s.queue.length < sendCapacity)).map
          (fun s => { s with queue := s.queue ++ [Message.mk h body] }) := by
      simp [routeOne, deliverToSubs_eq]
    rw [hsubs] at h2
    simp only [List.mem_map, List.mem_filter] at h2
    obtain ⟨s0, ⟨hs0, _⟩, rfl⟩ := h2
    exact hA s0 hs0
  · have hclosed : (routeOne body st h).closedQueues =
        st.closedQueues ++
          (st.subscriptions.filter
            (fun s => ¬(s.queue.length < sendCapacity))).map SubState.sid := by
      simp [routeOne, deliverToSubs_eq]
    rw [hclosed, List.count_append]
    have hz : ((st.subscriptions.filter
        (fun s => ¬(s.queue.length < sendCapacity))).map SubState.sid).count
          sid = 0 := by
      rw [List.count_eq_zero]
      intro hmem
      simp only [List.mem_map, List.mem_filter] at hmem
      obtain ⟨s0, ⟨hs0, _⟩, heq⟩ := hmem
      exact hA s0 hs0 heq
    omega

/-- Dispatching one output topic to a live-set with distinct ids in which
`s` sits with a full queue removes `s` and emits exactly one close event
for it. -/
theorem routeOne_full (body : List Nat) (h : String) (st : RouterState)
    (s : SubState) (hNd : (st.subscriptions.map SubState.sid).Nodup)
    (hMem : s ∈ st.subscriptions)
    (hFull : ¬ s.queue.length < sendCapacity) :
    (∀ s2 ∈ (routeOne body st h).subscriptions, s2.sid ≠ s.sid) ∧
      (routeOne body st h).closedQueues.count s.sid =
        st.closedQueues.count s.sid + 1 := by
  constructor
  · intro s2 h2
    have hsubs : (routeOne body st h).subscriptions =
        (st.subscriptions.filter (fun s => s.queue.length < sendCapacity)).map
          (fun s => { s with queue := s.queue ++ [Message.mk h body] }) := by
      simp [routeOne, deliverToSubs_eq]
    rw [hsubs] at h2
    simp only [List.mem_map, List.mem_filter] at h2
    obtain ⟨s0, ⟨hs0, hroom⟩, rfl⟩ := h2
    intro heq
    have : s0 = s := List.inj_on_of_nodup_map hNd hs0 hMem heq
    subst this
    rw [decide_eq_true_eq] at hroom
    exact hFull hroom
  · have hclosed : (routeOne body st h).closedQueues =
        st.closedQueues ++
          (st.subscriptions.filter
            (fun s => ¬(s.queue.length < sendCapacity))).map SubState.sid := by
      simp [routeOne, deliverToSubs_eq]
    rw [hclosed, List.count_append]
    have hmem1 : s.sid ∈ (st.subscriptions.filter
        (fun s => ¬(s.queue.length < sendCapacity))).map SubState.sid :=
      List.mem_map.mpr ⟨s, List.mem_filter.mpr ⟨hMem, by simpa using hFull⟩, rfl⟩
    have hnd1 : ((st.subscriptions.filter
        (fun s => ¬(s.queue.length < sendCapacity))).map SubState.sid).Nodup :=
      hNd.sublist ((List.filter_sublist _).map SubState.sid)
    rw [List.count_eq_one_of_mem hnd1 hmem1]

/-- The whole output-topic loop neither reintroduces an absent id nor
closes its queue. -/
theorem foldl_routeOne_absent (body : List Nat) (hs : List String) :
    ∀ (st : RouterState) (sid : Nat),
      (∀ s ∈ st.subscriptions, s.sid ≠ sid) →
      (∀ s2 ∈ (hs.foldl (routeOne body) st).subscriptions, s2.sid ≠ sid) ∧
        (hs.foldl (routeOne body) st).closedQueues.count sid =
          st.closedQueues.count sid := by
  induction hs with
  | nil => intro st sid hA; exact ⟨hA, rfl⟩
  | cons h rest ih =>
      intro st sid hA
      rw [List.foldl_cons]
      obtain ⟨h1, h2⟩ := routeOne_absent body h st sid hA
      obtain ⟨h3, h4⟩ := ih (routeOne body st h) sid h1
      exact ⟨h3, h4.trans h2⟩

/-- C2: when a subscription's queue is full at dispatch time (ids
distinct, topic routed to at least one output), dispatch removes it from
the live-set and closes its queue exactly once, and a later
unregistration request for the same id is a complete no-op — in
particular it performs no second close. -/
theorem full_queue_single_close (st : RouterState) (msg : Message)
    (headers : List String) (s : SubState)
    (hNd : (st.subscriptions.map SubState.sid).Nodup)
    (hMem : s ∈ st.subscriptions)
    (hFull : ¬ s.queue.length < sendCapacity)
    (hT : lookupTable st.routingTable msg.Header = some headers)
    (hNe : headers ≠ []) :
    (∀ s2 ∈ (route st msg).subscriptions, s2.sid ≠ s.sid) ∧
      (route st msg).closedQueues.count s.sid =
        st.closedQueues.count s.sid + 1 ∧
      routerStep (route st msg) (RouterEvent.unregister s.sid) =
        route st msg := by
  have hroute : route st msg = headers.foldl (routeOne msg.Body) st := by
    simp [route, hT]
  cases headers with
  | nil => exact absurd rfl hNe
  | cons h rest =>
      obtain ⟨h1, h2⟩ := routeOne_full msg.Body h st s hNd hMem hFull
      obtain ⟨h3, h4⟩ :=
        foldl_routeOne_absent msg.Body rest (routeOne msg.Body st h) s.sid h1
      rw [hroute, List.foldl_cons]
      refine ⟨h3, by rw [h4, h2], ?_⟩
      have hcond : ¬((rest.foldl (routeOne msg.Body)
          (routeOne msg.Body st h)).subscriptions.any
            (fun x => x.sid == s.sid) = true) := by
        rw [List.any_eq_true]
        rintro ⟨x, hx, hbeq⟩
        exact h3 x hx (by simpa using hbeq)
      simp only [routerStep]
      rw [if_neg hcond]

/-- Witness for C2: subscription 1's queue is at the 1024 capacity when a
`"ping"` message is dispatched — it is removed, closed exactly once, and
a subsequent unregistration request for it is a no-op. -/
theorem full_queue_single_close_witness :
    (∀ s2 ∈ (route stF mPing).subscriptions, s2.sid ≠ 1) ∧
      (route stF mPing).closedQueues.count 1 =
        stF.closedQueues.count 1 + 1 ∧
      routerStep (route stF mPing) (RouterEvent.unregister 1) =
        route stF mPing :=
  full_queue_single_close stF mPing ["pong"] { sid := 1, queue := fullQueue }
    (by decide)
    (List.mem_cons_self _ _)
    (by simp [fullQueue])
    (by decide)
    (by decide)
